import Mathlib

/-!
# Verification of the candidate-matching core of `ai_hack`

A shallow embedding, in Lean 4, of the matching pipeline of the `ai_hack`
repository, together with theorems settling the specification claims about it.

Python floats are modelled as rationals (`ℚ`); Python `Optional` values as
`Option`; Python code that can raise an uncaught exception is modelled in the
`Except String` monad.  Python strings are modelled by Lean `String`, with the
relevant `str` methods (`lower`, `strip`, `split`, `startswith`, `replace`,
substring containment) re-implemented structurally over the character list so
that every definition is executable and kernel-reducible.

Embedded source files:
* `src/services/screening_service.py` (class `ScreeningService`)
* `src/services/reranking_service.py` (method `rerank_candidates`)
* `src/agents/base_agent.py`          (method `_parse_agent_response`)
* `src/agents/agent_coordinator.py`   (class `AgentCoordinator`)
* `src/core/domain/models.py`         (models `Vacancy`, `Candidate`)
-/

namespace AiHack

/-! ## Python string primitives -/

/-- The characters removed by Python's `str.strip()` (ASCII whitespace). -/
def isSpaceC (c : Char) : Bool :=
  c == ' ' || c == '\t' || c == '\n' || c == '\r' || c == '\x0b' || c == '\x0c'

/-- Python `s.strip()` on a character list. -/
def stripL (l : List Char) : List Char :=
  ((l.dropWhile isSpaceC).reverse.dropWhile isSpaceC).reverse

/-- Python `s.strip()`. -/
def pyStrip (s : String) : String := ⟨stripL s.data⟩

/-- Python `s.lower()` (ASCII case folding). -/
def pyLower (s : String) : String := ⟨s.data.map Char.toLower⟩

/-- `startsWithL l p = true` iff `p` is an initial segment of `l`
(Python `l.startswith(p)`). -/
def startsWithL : List Char → List Char → Bool
  | _, [] => true
  | [], _ :: _ => false
  | c :: cs, p :: ps => c == p && startsWithL cs ps

/-- Python `s.startswith(p)`. -/
def pyStartsWith (s p : String) : Bool := startsWithL s.data p.data

/-- `containsL hay pat = true` iff `pat` occurs contiguously in `hay`
(Python `pat in hay` for strings). -/
def containsL : List Char → List Char → Bool
  | [], pat => pat.isEmpty
  | c :: cs, pat => startsWithL (c :: cs) pat || containsL cs pat

/-- Python `sub in hay` (substring containment). -/
def pyContains (hay sub : String) : Bool := containsL hay.data sub.data

/-- Python `s.split(sep)` for a one-character separator, on character lists.
`splitOnC sep [] = [[]]`, matching Python's `"".split(sep) == [""]`. -/
def splitOnC (sep : Char) : List Char → List (List Char)
  | [] => [[]]
  | c :: cs =>
    let r := splitOnC sep cs
    if c == sep then [] :: r
    else
      match r with
      | [] => [[c]]
      | h :: t => (c :: h) :: t

/-- Python `s.split(sep)` for a one-character separator. -/
def pySplit (s : String) (sep : Char) : List String :=
  (splitOnC sep s.data).map (fun l => ⟨l⟩)

/-- One fuel-indexed step list of Python `s.replace(pat, "")`: left-to-right,
non-overlapping, scanning resumes after a removed occurrence.  The fuel is an
upper bound on the list length, so `replaceFuel pat l.length l` computes the
replacement exactly. -/
def replaceFuel (pat : List Char) : ℕ → List Char → List Char
  | 0, l => l
  | _ + 1, [] => []
  | fuel + 1, c :: cs =>
    if startsWithL (c :: cs) pat && !pat.isEmpty then
      replaceFuel pat fuel (List.drop (pat.length - 1) cs)
    else
      c :: replaceFuel pat fuel cs

/-- Python `s.replace(pat, "")` (delete every occurrence of `pat`). -/
def pyReplaceDel (s pat : String) : String :=
  ⟨replaceFuel pat.data s.data.length s.data⟩

/-- Numeric value of a digit list (most significant first). -/
def natOfDigits (l : List Char) : ℕ :=
  l.foldl (fun a c => a * 10 + (c.toNat - '0'.toNat)) 0

/-- Lexical part of Python's `float(s)` on plain decimal literals: an
optional sign, an integer part, an optional `.` and fraction part, at least
one digit overall; anything else fails (`ValueError`).  Returns
(is-negative, integer digits, fraction digits). -/
def pyFloatShape (cs : List Char) : Option (Bool × List Char × List Char) :=
  let isNeg : Bool := cs.head? = some '-'
  let rest := if cs.head? = some '-' ∨ cs.head? = some '+' then cs.tail else cs
  let intPart := rest.takeWhile Char.isDigit
  let rest2 := rest.dropWhile Char.isDigit
  if rest2.isEmpty then
    if intPart.isEmpty then none else some (isNeg, intPart, [])
  else if rest2.head? = some '.' then
    let frac := rest2.tail
    if frac.all Char.isDigit && !(intPart.isEmpty && frac.isEmpty) then
      some (isNeg, intPart, frac)
    else none
  else none

/-- Model of Python's `float(s)` on plain decimal literals.  (The exotic
forms `float` also accepts — exponents, `inf`, `nan`, underscores,
surrounding whitespace — do not occur in this development.) -/
def pyFloat (s : String) : Option ℚ :=
  match pyFloatShape s.data with
  | none => none
  | some (neg, intPart, frac) =>
    some ((if neg then -1 else 1)
      * ((natOfDigits intPart : ℚ) + (natOfDigits frac : ℚ) / (10 ^ frac.length)))

/-- Python `" ".join(l)`. -/
def joinSpace (l : List String) : String := String.intercalate " " l

/-! ## Stable descending sort (model of Python `list.sort(key=…, reverse=True)`)

Python's `list.sort` is stable, and `reverse=True` reverses each comparison
while preserving stability.  Any stable sorting algorithm with the same
comparison produces the identical output list, so a stable insertion sort is
an exact model. -/

/-- Insert `x` into a descending-sorted list, before the first element whose
key is `≤ key x` (so an earlier-arriving element precedes equal keys). -/
def insertDesc (key : α → ℚ) (x : α) : List α → List α
  | [] => [x]
  | b :: bs => if key b ≤ key x then x :: b :: bs else b :: insertDesc key x bs

/-- Stable sort, descending by `key`. -/
def sortByDesc (key : α → ℚ) : List α → List α
  | [] => []
  | x :: xs => insertDesc key x (sortByDesc key xs)

theorem insertDesc_perm (key : α → ℚ) (x : α) (l : List α) :
    List.Perm (insertDesc key x l) (x :: l) := by
  induction l with
  | nil => simp [insertDesc]
  | cons b bs ih =>
    simp only [insertDesc]
    split
    · exact List.Perm.refl _
    · exact (List.Perm.cons b ih).trans (List.Perm.swap x b bs)

theorem sortByDesc_perm (key : α → ℚ) (l : List α) :
    List.Perm (sortByDesc key l) l := by
  induction l with
  | nil => simp [sortByDesc]
  | cons x xs ih =>
    exact (insertDesc_perm key x (sortByDesc key xs)).trans (List.Perm.cons x ih)

theorem mem_insertDesc {key : α → ℚ} {x a : α} {l : List α} :
    a ∈ insertDesc key x l ↔ a = x ∨ a ∈ l :=
  ⟨fun h => by simpa using (insertDesc_perm key x l).mem_iff.mp h,
   fun h => (insertDesc_perm key x l).mem_iff.mpr (by simpa using h)⟩

theorem mem_sortByDesc {key : α → ℚ} {a : α} {l : List α} :
    a ∈ sortByDesc key l ↔ a ∈ l :=
  (sortByDesc_perm key l).mem_iff

theorem length_sortByDesc (key : α → ℚ) (l : List α) :
    (sortByDesc key l).length = l.length :=
  (sortByDesc_perm key l).length_eq

theorem pairwise_insertDesc (key : α → ℚ) (x : α) (l : List α)
    (h : l.Pairwise (fun a b => key b ≤ key a)) :
    (insertDesc key x l).Pairwise (fun a b => key b ≤ key a) := by
  induction l with
  | nil => simp [insertDesc]
  | cons b bs ih =>
    rcases List.pairwise_cons.mp h with ⟨hb, hbs⟩
    simp only [insertDesc]
    split
    · rename_i hbx
      refine List.pairwise_cons.mpr ⟨?_, h⟩
      intro c hc
      rcases List.mem_cons.mp hc with rfl | hc
      · exact hbx
      · exact le_trans (hb c hc) hbx
    · rename_i hbx
      refine List.pairwise_cons.mpr ⟨?_, ih hbs⟩
      intro c hc
      rcases mem_insertDesc.mp hc with rfl | hc
      · exact le_of_lt (lt_of_not_le hbx)
      · exact hb c hc

theorem pairwise_sortByDesc (key : α → ℚ) (l : List α) :
    (sortByDesc key l).Pairwise (fun a b => key b ≤ key a) := by
  induction l with
  | nil => simp [sortByDesc]
  | cons x xs ih => exact pairwise_insertDesc key x _ ih

/-! ## Domain models (`src/core/domain/models.py`) -/

/-- `Vacancy` (pydantic model).  The `id` / `created_at` bookkeeping fields do
not participate in any embedded computation and are omitted. -/
structure Vacancy where
  title : String
  description : String
  requirements : List String
  responsibilities : List String
  skills : List String
  experience_years : Option ℤ
  salary_range : Option String
  location : Option String
  employment_type : String
deriving DecidableEq

/-- `Candidate` (pydantic model), same conventions as `Vacancy`. -/
structure Candidate where
  name : String
  email : String
  phone : Option String
  summary : String
  skills : List String
  experience : List String
  education : List String
  experience_years : Option ℤ
  desired_position : Option String
  desired_salary : Option String
  location : Option String
deriving DecidableEq

/-! ## Screening engine (`src/services/screening_service.py`)

The service is embedded in its basic-matching configuration
(`use_semantic_matching = False`, i.e. the documented fallback path):
the semantic path delegates skill comparison to the external embedding
model, which is outside the core being verified. -/

/-- The `details` sub-dictionary of a screening result. -/
structure ScreeningDetails where
  candidate_skills : ℕ
  required_skills : ℕ
  skills_matched : ℤ
  experience_diff : ℤ
deriving DecidableEq

/-- The dictionary returned by `ScreeningService.screen_candidate`. -/
structure ScreeningResult where
  screening_score : ℚ
  vector_score : ℚ
  hard_skills_score : ℚ
  experience_score : ℚ
  location_score : ℚ
  keyword_boost : ℚ
  decision : String
  details : ScreeningDetails
deriving DecidableEq

/-- `ScreeningService.calculate_hard_skills_match` (basic string matching):
the fraction of required skills present, case-insensitively, among the
candidate's skills; `1.0` when no skills are required.  Python's
`set` of lowered strings is modelled by `Finset String`. -/
def calculate_hard_skills_match (candidate_skills required_skills : List String) : ℚ :=
  if required_skills.isEmpty then 1
  else
    let candidate_skills_lower := (candidate_skills.map pyLower).toFinset
    let required_skills_lower := (required_skills.map pyLower).toFinset
    let matched := candidate_skills_lower ∩ required_skills_lower
    (matched.card : ℚ) / (required_skills_lower.card : ℚ)

/-- `ScreeningService.calculate_experience_match` on genuine integers. -/
def calculate_experience_match (candidate_years required_years tolerance : ℤ) : ℚ :=
  if required_years = 0 then 1
  else if |candidate_years - required_years| = 0 then 1
  else if |candidate_years - required_years| ≤ tolerance then 4 / 5
  else if candidate_years > required_years then
    max (3 / 5) (1 - ((|candidate_years - required_years| - tolerance : ℤ) : ℚ) * (1 / 10))
  else
    max (3 / 10) (1 - ((|candidate_years - required_years| - tolerance : ℤ) : ℚ) * (3 / 20))

/-- `calculate_experience_match` as called with a possibly-`None` first
argument (Python is dynamically typed): `required_years == 0` returns before
the subtraction, otherwise `abs(None - required_years)` raises `TypeError`. -/
def expMatchPy (candidate_years : Option ℤ) (required_years tolerance : ℤ) :
    Except String ℚ :=
  if required_years = 0 then pure 1
  else
    match candidate_years with
    | none => Except.error "TypeError: None - int"
    | some cy => pure (calculate_experience_match cy required_years tolerance)

/-- The `abs(candidate.experience_years - (vacancy.experience_years or 0))`
computation in the `details` record of `screen_candidate`: raises `TypeError`
whenever `candidate.experience_years` is `None`. -/
def expDiffPy (candidate_years : Option ℤ) (required_years : ℤ) :
    Except String ℤ :=
  match candidate_years with
  | none => Except.error "TypeError: None - int"
  | some cy => pure (|cy - required_years|)

/-- The static keyword dictionary in `ScreeningService._extract_keywords`. -/
def important_keywords : List String :=
  ["senior", "lead", "architect", "microservices", "cloud", "aws", "azure",
   "gcp", "kubernetes", "docker", "ci/cd", "agile", "scrum", "tdd", "rest",
   "api", "database", "sql", "nosql", "python", "java", "javascript",
   "react", "angular", "vue"]

/-- `ScreeningService._extract_keywords` (filter the static dictionary by
occurrence in the given text, which the caller has already lowercased). -/
def extract_keywords (text : String) : List String :=
  important_keywords.filter (fun kw => pyContains text kw)

/-- `ScreeningService.calculate_keyword_boost`. -/
def calculate_keyword_boost (candidate_text vacancy_text : String)
    (keywords : List String) : ℚ :=
  let candidate_lower := pyLower candidate_text
  let vacancy_lower := pyLower vacancy_text
  let keywords := if keywords.isEmpty then extract_keywords vacancy_lower else keywords
  let matched := (keywords.filter (fun kw => pyContains candidate_lower (pyLower kw))).length
  if keywords.isEmpty then 0
  else min (1 / 5) ((matched : ℚ) / (keywords.length : ℚ) * (1 / 5))

/-- `ScreeningService.calculate_location_match`. -/
def calculate_location_match (candidate_location vacancy_location : String) : ℚ :=
  if vacancy_location = "" ∨ candidate_location = "" then 1
  else
    let candidate_lower := pyLower candidate_location
    let vacancy_lower := pyLower vacancy_location
    if candidate_lower = vacancy_lower then 1
    else if pyContains vacancy_lower "remote" || pyContains vacancy_lower "удален" then 1
    else if pyContains candidate_lower "remote" || pyContains candidate_lower "удален" then 9 / 10
    else if pyContains vacancy_lower candidate_lower || pyContains candidate_lower vacancy_lower then 9 / 10
    else if pyContains candidate_lower "релокация" || pyContains candidate_lower "relocation" then 7 / 10
    else 1 / 2

/-- `ScreeningService.screen_candidate`.  The two sites that do arithmetic on
`candidate.experience_years` (the experience score and the
`experience_diff` detail) raise `TypeError` on a `None` value, in program
order, hence the `Except` monad. -/
def screen_candidate (candidate : Candidate) (vacancy : Vacancy)
    (vector_score : ℚ) : Except String ScreeningResult :=
  let hard_skills_score := calculate_hard_skills_match candidate.skills vacancy.skills
  match expMatchPy candidate.experience_years (vacancy.experience_years.getD 0) 1 with
  | Except.error e => Except.error e
  | Except.ok experience_score =>
    let location_score :=
      calculate_location_match (candidate.location.getD "") (vacancy.location.getD "")
    let candidate_text :=
      candidate.summary ++ " " ++ joinSpace (candidate.skills ++ candidate.experience)
    let vacancy_text :=
      vacancy.description ++ " " ++ joinSpace (vacancy.skills ++ vacancy.requirements)
    let keyword_boost := calculate_keyword_boost candidate_text vacancy_text vacancy.skills
    let screening_score :=
      vector_score * (2 / 5) + hard_skills_score * (3 / 10)
        + experience_score * (1 / 5) + location_score * (1 / 10) + keyword_boost
    let decision :=
      if screening_score ≥ 3 / 5 then "PASS"
      else if screening_score ≥ 2 / 5 then "MAYBE"
      else "REJECT"
    match expDiffPy candidate.experience_years (vacancy.experience_years.getD 0) with
    | Except.error e => Except.error e
    | Except.ok experience_diff =>
      Except.ok
        { screening_score := screening_score
          vector_score := vector_score
          hard_skills_score := hard_skills_score
          experience_score := experience_score
          location_score := location_score
          keyword_boost := keyword_boost
          decision := decision
          details :=
            { candidate_skills := candidate.skills.length
              required_skills := vacancy.skills.length
              skills_matched :=
                if vacancy.skills.isEmpty then 0
                else ⌊hard_skills_score * (vacancy.skills.length : ℚ)⌋
              experience_diff := experience_diff } }

/-! ## Component bounds -/

theorem calculate_experience_match_bounds (cy ry t : ℤ) :
    3 / 10 ≤ calculate_experience_match cy ry t
      ∧ calculate_experience_match cy ry t ≤ 1 := by
  unfold calculate_experience_match
  split_ifs with h0 h1 h2 h3
  · norm_num
  · norm_num
  · norm_num
  · have hd : (1 : ℚ) ≤ ((|cy - ry| - t : ℤ) : ℚ) := by
      have : (1 : ℤ) ≤ |cy - ry| - t := by
        have := lt_of_not_le h2
        linarith
      exact_mod_cast this
    constructor
    · exact le_trans (by norm_num) (le_max_left _ _)
    · exact max_le (by norm_num) (by linarith)
  · have hd : (1 : ℚ) ≤ ((|cy - ry| - t : ℤ) : ℚ) := by
      have : (1 : ℤ) ≤ |cy - ry| - t := by
        have := lt_of_not_le h2
        linarith
      exact_mod_cast this
    constructor
    · exact le_max_left _ _
    · exact max_le (by norm_num) (by linarith)

theorem calculate_location_match_bounds (c v : String) :
    1 / 2 ≤ calculate_location_match c v ∧ calculate_location_match c v ≤ 1 := by
  unfold calculate_location_match
  dsimp only
  split_ifs <;> norm_num

theorem calculate_hard_skills_match_bounds (cs rs : List String) :
    0 ≤ calculate_hard_skills_match cs rs ∧ calculate_hard_skills_match cs rs ≤ 1 := by
  unfold calculate_hard_skills_match
  split_ifs with h
  · norm_num
  · have hcard : 0 < ((rs.map pyLower).toFinset.card : ℚ) := by
      have : (rs.map pyLower).toFinset.Nonempty := by
        rcases rs with _ | ⟨r, rs⟩
        · simp at h
        · exact ⟨pyLower r, by simp⟩
      have := Finset.card_pos.mpr this
      exact_mod_cast this
    constructor
    · positivity
    · rw [div_le_one hcard]
      have hle : ((cs.map pyLower).toFinset ∩ (rs.map pyLower).toFinset).card
          ≤ (rs.map pyLower).toFinset.card :=
        Finset.card_le_card Finset.inter_subset_right
      exact_mod_cast hle

theorem calculate_keyword_boost_bounds (ct vt : String) (kws : List String) :
    0 ≤ calculate_keyword_boost ct vt kws ∧ calculate_keyword_boost ct vt kws ≤ 1 / 5 := by
  unfold calculate_keyword_boost
  dsimp only
  split_ifs <;> norm_num <;> positivity

theorem expMatchPy_bounds {cy : Option ℤ} {ry t : ℤ} {es : ℚ}
    (h : expMatchPy cy ry t = Except.ok es) : 3 / 10 ≤ es ∧ es ≤ 1 := by
  unfold expMatchPy at h
  split_ifs at h with h0
  · simp only [pure, Except.pure, Except.ok.injEq] at h
    subst h; norm_num
  · match cy with
    | none => simp at h
    | some y =>
      simp only [pure, Except.pure, Except.ok.injEq] at h
      subst h
      exact calculate_experience_match_bounds y ry t

/-! ## Claim C8: the experience-match formula -/

/-- **C8.** For every pair of integer experience years with required years
nonzero, `calculate_experience_match` (at the default tolerance 1) returns
`1.0` on exact match, `0.8` when the absolute difference is within the
tolerance, `max(0.6, 1.0 - 0.1*(excess - tolerance))` when the candidate
exceeds the requirement beyond tolerance, and
`max(0.3, 1.0 - 0.15*(deficit - tolerance))` when the candidate falls short;
the result always lies in `[0.3, 1.0]`; required years `= 0` yields `1.0`. -/
theorem experience_match_spec (cy ry : ℤ) (hry : ry ≠ 0) :
    (cy = ry → calculate_experience_match cy ry 1 = 1)
    ∧ (cy ≠ ry → |cy - ry| ≤ 1 → calculate_experience_match cy ry 1 = 4 / 5)
    ∧ (1 < |cy - ry| → ry < cy →
        calculate_experience_match cy ry 1 =
          max (3 / 5) (1 - ((|cy - ry| - 1 : ℤ) : ℚ) * (1 / 10)))
    ∧ (1 < |cy - ry| → cy < ry →
        calculate_experience_match cy ry 1 =
          max (3 / 10) (1 - ((|cy - ry| - 1 : ℤ) : ℚ) * (3 / 20)))
    ∧ 3 / 10 ≤ calculate_experience_match cy ry 1
    ∧ calculate_experience_match cy ry 1 ≤ 1
    ∧ (∀ y : ℤ, calculate_experience_match y 0 1 = 1) := by
  refine ⟨?_, ?_, ?_, ?_, (calculate_experience_match_bounds cy ry 1).1,
    (calculate_experience_match_bounds cy ry 1).2, ?_⟩
  · intro h
    subst h
    simp [calculate_experience_match, hry]
  · intro hne hle
    have h0 : ¬(|cy - ry| = 0) := by
      simp only [abs_eq_zero, sub_eq_zero]
      exact hne
    simp [calculate_experience_match, hry, h0, hle]
  · intro hgt hlt
    have h0 : ¬(|cy - ry| = 0) := by omega
    have h1 : ¬(|cy - ry| ≤ 1) := by omega
    simp [calculate_experience_match, hry, h0, h1, hlt]
  · intro hgt hlt
    have h0 : ¬(|cy - ry| = 0) := by omega
    have h1 : ¬(|cy - ry| ≤ 1) := by omega
    have h2 : ¬(ry < cy) := by omega
    simp [calculate_experience_match, hry, h0, h1, h2]
  · intro y
    simp [calculate_experience_match]

/-- Witness for C8 at a concrete input (`5` years offered against `3`
required: over-qualified beyond tolerance). -/
theorem experience_match_spec_witness :
    calculate_experience_match 5 3 1 =
      max (3 / 5) (1 - ((|(5 : ℤ) - 3| - 1 : ℤ) : ℚ) * (1 / 10)) :=
  (experience_match_spec 5 3 (by norm_num)).2.2.1 (by norm_num) (by norm_num)

/-! ## Claim C4: the location-match rules -/

/-- **C4 counterexample.** The claim says a candidate location denoting remote
work yields `1.0`; on the code, candidate `"remote"` against vacancy
`"moscow"` yields `0.9`. -/
theorem location_match_claim_cex :
    calculate_location_match "remote" "moscow" = 9 / 10 ∧ ((9 : ℚ) / 10 ≠ 1) := by
  constructor
  · unfold calculate_location_match
    rw [if_neg (by decide)]
    dsimp only
    rw [if_neg (by decide), if_neg (by decide), if_pos (by decide)]
  · norm_num

/-- **C4 (amended).** For every pair of non-empty location strings,
`calculate_location_match` returns `1.0` for an exact (case-insensitive)
match or when the *vacancy* side denotes remote work; `0.9` when the
*candidate* side denotes remote work or for substring containment in either
direction; `0.7` when the candidate text signals relocation willingness; and
`0.5` otherwise; when either side is empty it returns `1.0`. -/
theorem location_match_spec (c v : String) (hc : c ≠ "") (hv : v ≠ "") :
    (∀ a b : String, a = "" ∨ b = "" → calculate_location_match a b = 1)
    ∧ (pyLower c = pyLower v → calculate_location_match c v = 1)
    ∧ ((pyContains (pyLower v) "remote" || pyContains (pyLower v) "удален") = true →
        calculate_location_match c v = 1)
    ∧ (pyLower c ≠ pyLower v →
        (pyContains (pyLower v) "remote" || pyContains (pyLower v) "удален") = false →
        ((pyContains (pyLower c) "remote" || pyContains (pyLower c) "удален") = true
          ∨ (pyContains (pyLower v) (pyLower c) || pyContains (pyLower c) (pyLower v)) = true) →
        calculate_location_match c v = 9 / 10)
    ∧ (pyLower c ≠ pyLower v →
        (pyContains (pyLower v) "remote" || pyContains (pyLower v) "удален") = false →
        (pyContains (pyLower c) "remote" || pyContains (pyLower c) "удален") = false →
        (pyContains (pyLower v) (pyLower c) || pyContains (pyLower c) (pyLower v)) = false →
        (pyContains (pyLower c) "релокация" || pyContains (pyLower c) "relocation") = true →
        calculate_location_match c v = 7 / 10)
    ∧ (pyLower c ≠ pyLower v →
        (pyContains (pyLower v) "remote" || pyContains (pyLower v) "удален") = false →
        (pyContains (pyLower c) "remote" || pyContains (pyLower c) "удален") = false →
        (pyContains (pyLower v) (pyLower c) || pyContains (pyLower c) (pyLower v)) = false →
        (pyContains (pyLower c) "релокация" || pyContains (pyLower c) "relocation") = false →
        calculate_location_match c v = 1 / 2) := by
  have hne : ¬(v = "" ∨ c = "") := by
    rintro (h | h)
    · exact hv h
    · exact hc h
  refine ⟨?_, ?_, ?_, ?_, ?_, ?_⟩
  · intro a b hab
    unfold calculate_location_match
    rcases hab with h | h <;> rw [if_pos (by tauto)]
  · intro h
    unfold calculate_location_match
    rw [if_neg hne]
    dsimp only
    rw [if_pos h]
  · intro h
    unfold calculate_location_match
    rw [if_neg hne]
    dsimp only
    by_cases heq : pyLower c = pyLower v
    · rw [if_pos heq]
    · rw [if_neg heq, if_pos (by simp [h])]
  · intro h1 h2 h3
    unfold calculate_location_match
    rw [if_neg hne]
    dsimp only
    rw [if_neg h1, if_neg (by simp [h2])]
    rcases h3 with h3 | h3
    · rw [if_pos (by simp [h3])]
    · by_cases hcr :
        (pyContains (pyLower c) "remote" || pyContains (pyLower c) "удален") = true
      · rw [if_pos (by simp [hcr])]
      · rw [if_neg (by simp [Bool.not_eq_true] at hcr; simp [hcr]), if_pos (by simp [h3])]
  · intro h1 h2 h3 h4 h5
    unfold calculate_location_match
    rw [if_neg hne]
    dsimp only
    rw [if_neg h1, if_neg (by simp [h2]), if_neg (by simp [h3]), if_neg (by simp [h4]),
      if_pos (by simp [h5])]
  · intro h1 h2 h3 h4 h5
    unfold calculate_location_match
    rw [if_neg hne]
    dsimp only
    rw [if_neg h1, if_neg (by simp [h2]), if_neg (by simp [h3]), if_neg (by simp [h4]),
      if_neg (by simp [h5])]

/-- Witness for C4 (amended) at concrete inputs: `"Moscow"` against
`"moscow"` is an exact case-insensitive match. -/
theorem location_match_spec_witness :
    calculate_location_match "Moscow" "moscow" = 1 :=
  (location_match_spec "Moscow" "moscow" (by decide) (by decide)).2.1 (by decide)

/-! ## Claims C1, C2, C10: `screen_candidate` -/

/-- **C1.** For every candidate, vacancy and vector score, a successful
`screen_candidate` returns a result whose `screening_score` equals
`0.4*vector_score + 0.3*hard_skills_score + 0.2*experience_score +
0.1*location_score + keyword_boost`, and whose decision is `PASS` exactly
when `screening_score ≥ 0.6`, `MAYBE` exactly when
`0.4 ≤ screening_score < 0.6`, and `REJECT` otherwise (so the boundaries
are exact: score `0.6` gives `PASS`, any score just below `0.6` gives
`MAYBE`, any score just below `0.4` gives `REJECT`). -/
theorem screen_candidate_spec (c : Candidate) (v : Vacancy) (vs : ℚ)
    (r : ScreeningResult) (h : screen_candidate c v vs = Except.ok r) :
    r.vector_score = vs
    ∧ r.screening_score =
        vs * (2 / 5) + r.hard_skills_score * (3 / 10) + r.experience_score * (1 / 5)
          + r.location_score * (1 / 10) + r.keyword_boost
    ∧ (r.decision = "PASS" ↔ 3 / 5 ≤ r.screening_score)
    ∧ (r.decision = "MAYBE" ↔ 2 / 5 ≤ r.screening_score ∧ r.screening_score < 3 / 5)
    ∧ (r.decision = "REJECT" ↔ r.screening_score < 2 / 5) := by
  unfold screen_candidate at h
  cases hm : expMatchPy c.experience_years (v.experience_years.getD 0) 1 with
  | error e => rw [hm] at h; exact absurd h (by simp)
  | ok es =>
    rw [hm] at h
    dsimp only at h
    cases hd : expDiffPy c.experience_years (v.experience_years.getD 0) with
    | error e => rw [hd] at h; exact absurd h (by simp)
    | ok dv =>
      rw [hd] at h
      rw [Except.ok.injEq] at h
      subst h
      refine ⟨rfl, rfl, ?_, ?_, ?_⟩ <;>
        · dsimp only
          split_ifs with h1 h2 <;>
            simp_all [ge_iff_le, not_le] <;> linarith

/-- A concrete candidate used to exercise `screen_candidate`. -/
def candW : Candidate :=
  { name := "Анна", email := "a@b.cd", phone := none, summary := "опытный инженер",
    skills := [], experience := [], education := [], experience_years := some 3,
    desired_position := none, desired_salary := none, location := none }

/-- A concrete vacancy used to exercise `screen_candidate`. -/
def vacW : Vacancy :=
  { title := "Инженер", description := "интересная позиция", requirements := [],
    responsibilities := [], skills := [], experience_years := some 3,
    salary_range := none, location := none, employment_type := "full-time" }

/-- The screening result `screen_candidate` produces on `candW`, `vacW` and
vector score `1/2`. -/
def resW : ScreeningResult :=
  { screening_score := 4 / 5, vector_score := 1 / 2, hard_skills_score := 1,
    experience_score := 1, location_score := 1, keyword_boost := 0,
    decision := "PASS",
    details := { candidate_skills := 0, required_skills := 0,
                 skills_matched := 0, experience_diff := 0 } }

/-- Concrete evaluation of `screen_candidate` on `candW`/`vacW`. -/
theorem screen_candidate_eval_W :
    screen_candidate candW vacW (1 / 2) = Except.ok resW := by
  have hkw : extract_keywords (pyLower ("интересная позиция" ++ " " ++ joinSpace [])) = [] := by
    decide
  unfold screen_candidate
  norm_num [candW, vacW, resW, expMatchPy, expDiffPy, calculate_experience_match,
    calculate_hard_skills_match, calculate_location_match, calculate_keyword_boost,
    hkw, pure, Except.pure]

/-- Witness for C1 at a concrete input. -/
theorem screen_candidate_spec_witness :
    resW.vector_score = 1 / 2 ∧ (resW.decision = "PASS" ↔ 3 / 5 ≤ resW.screening_score) := by
  have h := screen_candidate_spec candW vacW (1 / 2) resW screen_candidate_eval_W
  exact ⟨h.1, h.2.2.1⟩

/-- A candidate maximising every screening component. -/
def candC2 : Candidate :=
  { name := "Борис", email := "b@c.de", phone := none, summary := "python разработчик",
    skills := ["python"], experience := [], education := [], experience_years := some 5,
    desired_position := none, desired_salary := none, location := none }

/-- A vacancy on which `candC2` maximises every screening component. -/
def vacC2 : Vacancy :=
  { title := "Разработчик", description := "отличная вакансия", requirements := [],
    responsibilities := [], skills := ["python"], experience_years := none,
    salary_range := none, location := none, employment_type := "full-time" }

/-- The screening result on `candC2`/`vacC2` at vector score `1`: the
composite score is `1.2`. -/
def resC2 : ScreeningResult :=
  { screening_score := 6 / 5, vector_score := 1, hard_skills_score := 1,
    experience_score := 1, location_score := 1, keyword_boost := 1 / 5,
    decision := "PASS",
    details := { candidate_skills := 1, required_skills := 1,
                 skills_matched := 1, experience_diff := 5 } }

/-- **C2 counterexample.** `screen_candidate` never clamps the composite
score: with vector score `1 ∈ [0,1]` the concrete pair `candC2`/`vacC2`
yields `screening_score = 1.2 > 1`, refuting the claim that the
`screening_score` field always lies in `[0,1]`. -/
theorem screening_clamp_cex :
    screen_candidate candC2 vacC2 1 = Except.ok resC2
    ∧ resC2.screening_score = 6 / 5 ∧ ¬(resC2.screening_score ≤ 1) := by
  refine ⟨?_, rfl, by norm_num [resC2]⟩
  have hhard : calculate_hard_skills_match ["python"] ["python"] = 1 := by
    unfold calculate_hard_skills_match
    rw [if_neg (by decide)]
    norm_num [Finset.inter_self]
  have hcb : pyContains (pyLower ("python разработчик" ++ " " ++ joinSpace ["python"]))
      (pyLower "python") = true := by decide
  unfold screen_candidate
  norm_num [candC2, vacC2, resC2, expMatchPy, expDiffPy, calculate_experience_match,
    hhard, calculate_location_match, calculate_keyword_boost, hcb, pure, Except.pure]

/-- **C2 (amended).** Every *component* score of a successful
`screen_candidate` is clamped — `hard_skills_score ∈ [0,1]`,
`experience_score ∈ [0.3,1]`, `location_score ∈ [0.5,1]`,
`keyword_boost ∈ [0,0.2]` — and for every vector score in `[0,1]` the
composite `screening_score` lies in `[0, 1.2]` (not `[0,1]`: the keyword
boost of up to `0.2` is added on top of a weighted sum that can already
reach `1.0`, and the code never clamps the total). -/
theorem screening_score_range (c : Candidate) (v : Vacancy) (vs : ℚ)
    (r : ScreeningResult) (h0 : 0 ≤ vs) (h1 : vs ≤ 1)
    (h : screen_candidate c v vs = Except.ok r) :
    (0 ≤ r.hard_skills_score ∧ r.hard_skills_score ≤ 1)
    ∧ (3 / 10 ≤ r.experience_score ∧ r.experience_score ≤ 1)
    ∧ (1 / 2 ≤ r.location_score ∧ r.location_score ≤ 1)
    ∧ (0 ≤ r.keyword_boost ∧ r.keyword_boost ≤ 1 / 5)
    ∧ (0 ≤ r.screening_score ∧ r.screening_score ≤ 6 / 5) := by
  unfold screen_candidate at h
  cases hm : expMatchPy c.experience_years (v.experience_years.getD 0) 1 with
  | error e => rw [hm] at h; exact absurd h (by simp)
  | ok es =>
    rw [hm] at h
    dsimp only at h
    cases hd : expDiffPy c.experience_years (v.experience_years.getD 0) with
    | error e => rw [hd] at h; exact absurd h (by simp)
    | ok dv =>
      rw [hd] at h
      rw [Except.ok.injEq] at h
      subst h
      have hes := expMatchPy_bounds hm
      have hh := calculate_hard_skills_match_bounds c.skills v.skills
      have hl := calculate_location_match_bounds (c.location.getD "") (v.location.getD "")
      have hb := calculate_keyword_boost_bounds
        (c.summary ++ " " ++ joinSpace (c.skills ++ c.experience))
        (v.description ++ " " ++ joinSpace (v.skills ++ v.requirements)) v.skills
      obtain ⟨a1, a2⟩ := hh
      obtain ⟨b1, b2⟩ := hes
      obtain ⟨c1, c2⟩ := hl
      obtain ⟨d1, d2⟩ := hb
      exact ⟨⟨a1, a2⟩, ⟨b1, b2⟩, ⟨c1, c2⟩, ⟨d1, d2⟩,
        by dsimp only; constructor <;> linarith⟩

/-- Witness for C2 (amended) at a concrete input. -/
theorem screening_score_range_witness :
    0 ≤ resW.screening_score ∧ resW.screening_score ≤ 6 / 5 := by
  have h := screening_score_range candW vacW (1 / 2) resW (by norm_num) (by norm_num)
    screen_candidate_eval_W
  exact h.2.2.2.2

/-- **C10.** When the candidate's `experience_years` is unset (`None`) and
the vacancy requires a positive number of years, `screen_candidate` raises
`TypeError` (the years subtraction is unguarded against `None`) instead of
returning a result; and it returns successfully only when the candidate's
`experience_years` is an actual integer or the vacancy's requirement is `0`
or unset (indeed, success forces the candidate's years to be an integer:
the `experience_diff` detail also subtracts them). -/
theorem screen_candidate_none_years (c : Candidate) (v : Vacancy) (vs : ℚ) :
    (∀ k : ℤ, c.experience_years = none → v.experience_years = some k → 0 < k →
      screen_candidate c v vs = Except.error "TypeError: None - int")
    ∧ (∀ r : ScreeningResult, screen_candidate c v vs = Except.ok r →
        (∃ y : ℤ, c.experience_years = some y) ∨ v.experience_years = none
          ∨ v.experience_years = some 0) := by
  constructor
  · intro k hc hv hk
    unfold screen_candidate
    rw [hc, hv]
    simp [expMatchPy, (show k ≠ 0 by omega)]
  · intro r h
    unfold screen_candidate at h
    cases hce : c.experience_years with
    | some y => exact Or.inl ⟨y, rfl⟩
    | none =>
      rw [hce] at h
      by_cases hreq : (v.experience_years.getD 0) = 0
      · simp [expMatchPy, expDiffPy, hreq, pure, Except.pure] at h
      · simp [expMatchPy, expDiffPy, hreq] at h

/-- A candidate with unset `experience_years`. -/
def candNoneW : Candidate :=
  { name := "Вера", email := "v@w.xy", phone := none, summary := "начинающий аналитик",
    skills := [], experience := [], education := [], experience_years := none,
    desired_position := none, desired_salary := none, location := none }

/-- A vacancy requiring two years of experience. -/
def vacPosW : Vacancy :=
  { title := "Аналитик", description := "вакансия аналитика", requirements := [],
    responsibilities := [], skills := [], experience_years := some 2,
    salary_range := none, location := none, employment_type := "full-time" }

/-- Witness for C10 at a concrete input. -/
theorem screen_candidate_none_years_witness :
    screen_candidate candNoneW vacPosW 0 = Except.error "TypeError: None - int" :=
  (screen_candidate_none_years candNoneW vacPosW 0).1 2 rfl rfl (by norm_num)

/-! ## Claim C3: `filter_candidates`

In the source each vector-search hit is a dictionary
`{"metadata": …, "document": …, "score": …}`; `filter_candidates` *writes*
into it (`candidate_data["screening"] = screening_result`).  The embedding
passes this state explicitly: `filter_candidates` returns the pair
(final state of the input list, returned top list). -/

/-- The metadata dictionary attached to a vector-search hit; absent keys are
`none` (the source reads every key with `.get` and a default). -/
structure Metadata where
  name : Option String
  email : Option String
  skills : Option String
  experience : Option String
  experience_years : Option ℤ
  location : Option String
deriving DecidableEq

/-- One vector-search hit as consumed (and mutated) by `filter_candidates`.
`screening` models the `"screening"` key: `none` until the service stores a
screening result under it. -/
structure CandidateData where
  metadata : Metadata
  document : String
  score : ℚ
  screening : Option ScreeningResult
deriving DecidableEq

/-- The `CandidateModel(...)` construction inside `filter_candidates`,
including every `.get` default and the empty-string guards on the
comma/pipe splits. -/
def buildCandidate (cd : CandidateData) : Candidate :=
  { name := cd.metadata.name.getD "Unknown"
    email := cd.metadata.email.getD "unknown@example.com"
    phone := none
    summary := cd.document
    skills :=
      if cd.metadata.skills.getD "" = "" then []
      else pySplit (cd.metadata.skills.getD "") ','
    experience :=
      if cd.metadata.experience.getD "" = "" then []
      else pySplit (cd.metadata.experience.getD "") '|'
    education := []
    experience_years := some (cd.metadata.experience_years.getD 0)
    desired_position := none
    desired_salary := none
    location := some (cd.metadata.location.getD "") }

/-- `candidate_data["screening"]["screening_score"]`.  Every item reaching
this read has just been given a screening record, so the `getD` default is
never consulted. -/
def scrScore (cd : CandidateData) : ℚ :=
  (cd.screening.map ScreeningResult.screening_score).getD 0

/-- The body of the screening loop for one item: screen the rebuilt
candidate and store the result in the item's `"screening"` key. -/
def processCandidate (vacancy : Vacancy) (cd : CandidateData) : Except String CandidateData :=
  match screen_candidate (buildCandidate cd) vacancy cd.score with
  | Except.error e => Except.error e
  | Except.ok sr => Except.ok { cd with screening := some sr }

/-- Exception-propagating map: the screening loop aborts at the first item
whose screening raises. -/
def mapE (f : α → Except String β) : List α → Except String (List β)
  | [] => Except.ok []
  | x :: xs =>
    match f x with
    | Except.error e => Except.error e
    | Except.ok y =>
      match mapE f xs with
      | Except.error e => Except.error e
      | Except.ok ys => Except.ok (y :: ys)

/-- `ScreeningService.filter_candidates`: screen every item (mutating it),
keep those whose screening score reaches the minimum, sort descending by
screening score (stable, like Python's `list.sort(reverse=True)`) and
truncate to `top_k`.  Returns (final state of input items, top candidates). -/
def filter_candidates (candidates_with_scores : List CandidateData) (vacancy : Vacancy)
    (min_screening_score : ℚ) (top_k : ℕ) :
    Except String (List CandidateData × List CandidateData) :=
  match mapE (processCandidate vacancy) candidates_with_scores with
  | Except.error e => Except.error e
  | Except.ok processed =>
    let screened_candidates :=
      processed.filter (fun cd => min_screening_score ≤ scrScore cd)
    let sorted := sortByDesc scrScore screened_candidates
    Except.ok (processed, sorted.take top_k)

/-- A vector-search hit with no metadata and no screening record. -/
def cdX : CandidateData :=
  { metadata := { name := none, email := none, skills := none, experience := none,
                  experience_years := none, location := none },
    document := "просто резюме", score := 1 / 2, screening := none }

/-- The screening result `filter_candidates` computes for `cdX` against
`vacW`. -/
def resX : ScreeningResult :=
  { screening_score := 37 / 50, vector_score := 1 / 2, hard_skills_score := 1,
    experience_score := 7 / 10, location_score := 1, keyword_boost := 0,
    decision := "PASS",
    details := { candidate_skills := 0, required_skills := 0,
                 skills_matched := 0, experience_diff := 3 } }

/-- `cdX` after `filter_candidates` has stored its screening record. -/
def cdXp : CandidateData := { cdX with screening := some resX }

/-- Concrete evaluation of `filter_candidates` on the single hit `cdX`. -/
theorem filter_eval_X :
    filter_candidates [cdX] vacW (2 / 5) 10 = Except.ok ([cdXp], [cdXp]) := by
  have hkw : extract_keywords (pyLower ("интересная позиция" ++ " " ++ joinSpace [])) = [] := by
    decide
  have hscreen : screen_candidate (buildCandidate cdX) vacW cdX.score = Except.ok resX := by
    unfold screen_candidate
    norm_num [buildCandidate, cdX, vacW, resX, expMatchPy, expDiffPy,
      calculate_experience_match, calculate_hard_skills_match, calculate_location_match,
      calculate_keyword_boost, hkw, pure, Except.pure]
  unfold filter_candidates processCandidate
  norm_num [mapE, hscreen, scrScore, cdXp, resX, sortByDesc, insertDesc, List.filter,
    Option.map, Option.getD]

/-- **C3 counterexample.** `filter_candidates` is *not* free of side effects
on its input: after the call, the input dictionary has gained a
`"screening"` record (the final state of the input list differs from the
input list). -/
theorem filter_candidates_purity_cex :
    Except.map Prod.fst (filter_candidates [cdX] vacW (2 / 5) 10) ≠ Except.ok [cdX] := by
  intro hcon
  rw [filter_eval_X] at hcon
  simp only [Except.map] at hcon
  rw [Except.ok.injEq, List.cons.injEq] at hcon
  have h3 : cdXp.screening = cdX.screening := by rw [hcon.1]
  simp [cdXp, cdX] at h3

theorem mapE_mem {α β : Type} {f : α → Except String β} :
    ∀ {l : List α} {ys : List β}, mapE f l = Except.ok ys →
      ∀ y ∈ ys, ∃ x ∈ l, f x = Except.ok y := by
  intro l
  induction l with
  | nil =>
    intro ys h y hy
    simp only [mapE, Except.ok.injEq] at h
    subst h
    simp at hy
  | cons x xs ih =>
    intro ys h y hy
    unfold mapE at h
    cases hfx : f x with
    | error e => rw [hfx] at h; simp at h
    | ok y0 =>
      rw [hfx] at h
      cases hm : mapE f xs with
      | error e => rw [hm] at h; simp at h
      | ok ys0 =>
        rw [hm] at h
        simp only [Except.ok.injEq] at h
        subst h
        rcases List.mem_cons.mp hy with rfl | hy
        · exact ⟨x, List.mem_cons_self x xs, hfx⟩
        · rcases ih hm y hy with ⟨x', hx', hfx'⟩
          exact ⟨x', List.mem_cons_of_mem x hx', hfx'⟩

theorem processCandidate_sets_screening {v : Vacancy} {cd cd' : CandidateData}
    (h : processCandidate v cd = Except.ok cd') : cd'.screening ≠ none := by
  unfold processCandidate at h
  cases hs : screen_candidate (buildCandidate cd) v cd.score with
  | error e => rw [hs] at h; simp at h
  | ok sr =>
    rw [hs] at h
    simp only [Except.ok.injEq] at h
    subst h
    simp

/-- **C3 (amended).** `filter_candidates` is deterministic (it is a function
of its inputs) but *does* mutate the input items: every processed item ends
up carrying a screening record.  Its returned list contains only processed
items whose screening score reaches the caller-supplied minimum, is sorted
descending by screening score, and is truncated to `top_k`. -/
theorem filter_candidates_spec (lst : List CandidateData) (v : Vacancy) (ms : ℚ) (k : ℕ)
    (processed out : List CandidateData)
    (h : filter_candidates lst v ms k = Except.ok (processed, out)) :
    (∀ cd ∈ processed, cd.screening ≠ none)
    ∧ (∀ cd ∈ out, ms ≤ scrScore cd)
    ∧ out.Pairwise (fun a b => scrScore b ≤ scrScore a)
    ∧ out.length ≤ k
    ∧ (∀ cd ∈ out, cd ∈ processed) := by
  unfold filter_candidates at h
  cases hm : mapE (processCandidate v) lst with
  | error e => rw [hm] at h; exact absurd h (by simp)
  | ok proc =>
    rw [hm] at h
    dsimp only at h
    rw [Except.ok.injEq, Prod.mk.injEq] at h
    obtain ⟨h1, h2⟩ := h
    subst h1
    subst h2
    refine ⟨?_, ?_, ?_, ?_, ?_⟩
    · intro cd hcd
      rcases mapE_mem hm cd hcd with ⟨x, _, hx⟩
      exact processCandidate_sets_screening hx
    · intro cd hcd
      have h4 := mem_sortByDesc.mp (List.mem_of_mem_take hcd)
      have h5 := List.of_mem_filter h4
      simpa using h5
    · exact List.Pairwise.sublist (List.take_sublist _ _) (pairwise_sortByDesc _ _)
    · rw [List.length_take]
      exact min_le_left _ _
    · intro cd hcd
      exact List.mem_of_mem_filter (mem_sortByDesc.mp (List.mem_of_mem_take hcd))

/-- Witness for C3 (amended) at the concrete input `[cdX]`. -/
theorem filter_candidates_spec_witness :
    (2 / 5 : ℚ) ≤ scrScore cdXp ∧ [cdXp].length ≤ 10 := by
  have h := filter_candidates_spec [cdX] vacW (2 / 5) 10 [cdXp] [cdXp] filter_eval_X
  exact ⟨h.2.1 cdXp (List.mem_cons_self _ _), h.2.2.2.1⟩

/-! ## Claim C7: `rerank_candidates` (`src/services/reranking_service.py`)

The Cross-Encoder is an external collaborator: its (sigmoid-squashed)
output is an oracle argument, `Except.error` when `predict` raises. -/

/-- One shortlist item as consumed by `rerank_candidates`; `document` and
`score` are read with `.get` defaults, `rerank_score` is absent until the
reranker writes it. -/
structure RerankItem where
  document : Option String
  score : Option ℚ
  rerank_score : Option ℚ
deriving DecidableEq

/-- `candidate['rerank_score'] = s; candidate['score'] = 0.4*orig + 0.6*s`. -/
def applyRerank (c : RerankItem) (s : ℚ) : RerankItem :=
  { c with rerank_score := some s,
           score := some ((c.score.getD 0) * (2 / 5) + s * (3 / 5)) }

/-- The sort key `x['score']` (present on every reranked item). -/
def itemScore (c : RerankItem) : ℚ := c.score.getD 0

/-- `RerankingService.rerank_candidates`: truncate to the first `top_k`
items, build (vacancy, candidate) pairs for the model, blend the squashed
model scores into each item, and re-sort by the blended score; on model
failure return the truncated sublist unmodified. -/
def rerank_candidates (vacancy_text : String) (model_scores : Except String (List ℚ))
    (candidates : List RerankItem) (top_k : ℕ) : List RerankItem :=
  if candidates.isEmpty then []
  else
    let candidates_to_rerank := candidates.take top_k
    let _pairs := candidates_to_rerank.map (fun c => (vacancy_text, c.document.getD ""))
    match model_scores with
    | Except.error _ => candidates_to_rerank
    | Except.ok rerank_scores =>
      sortByDesc itemScore (List.zipWith applyRerank candidates_to_rerank rerank_scores)

theorem mem_zipWith {α β γ : Type} {f : α → β → γ} :
    ∀ {l1 : List α} {l2 : List β} {x : γ}, x ∈ List.zipWith f l1 l2 →
      ∃ a ∈ l1, ∃ b ∈ l2, x = f a b := by
  intro l1
  induction l1 with
  | nil => intro l2 x hx; simp at hx
  | cons a as ih =>
    intro l2 x hx
    cases l2 with
    | nil => simp at hx
    | cons b bs =>
      rw [List.zipWith_cons_cons] at hx
      rcases List.mem_cons.mp hx with rfl | hx
      · exact ⟨a, List.mem_cons_self a as, b, List.mem_cons_self b bs, rfl⟩
      · rcases ih hx with ⟨a', ha', b', hb', rfl⟩
        exact ⟨a', List.mem_cons_of_mem a ha', b', List.mem_cons_of_mem b hb', rfl⟩

/-- **C7.** `rerank_candidates` returns at most the first `top_k` items
(never longer than the input); on success every returned item's blended
score equals `0.4*original_vector_score + 0.6*rerank_score` for some input
item and some squashed model score, and stays in `[0,1]` when the originals
and the squashed scores are; the result is sorted descending by the blended
score; and on model failure the truncated sublist is returned unmodified. -/
theorem rerank_candidates_spec (vt : String) (cands : List RerankItem) (k : ℕ)
    (ss : List ℚ) (e : String)
    (hss : ∀ s ∈ ss, 0 ≤ s ∧ s ≤ 1)
    (hc : ∀ c ∈ cands, 0 ≤ c.score.getD 0 ∧ c.score.getD 0 ≤ 1) :
    (rerank_candidates vt (Except.ok ss) cands k).length ≤ cands.length
    ∧ (rerank_candidates vt (Except.ok ss) cands k).length ≤ k
    ∧ (∀ x ∈ rerank_candidates vt (Except.ok ss) cands k,
        ∃ c ∈ cands.take k, ∃ s ∈ ss,
          x = applyRerank c s
          ∧ x.rerank_score = some s
          ∧ x.score = some ((c.score.getD 0) * (2 / 5) + s * (3 / 5))
          ∧ 0 ≤ itemScore x ∧ itemScore x ≤ 1)
    ∧ (rerank_candidates vt (Except.ok ss) cands k).Pairwise
        (fun a b => itemScore b ≤ itemScore a)
    ∧ rerank_candidates vt (Except.error e) cands k = cands.take k := by
  by_cases hemp : cands.isEmpty
  · have : cands = [] := by simpa [List.isEmpty_iff] using hemp
    subst this
    simp [rerank_candidates]
  · unfold rerank_candidates
    rw [if_neg hemp, if_neg hemp]
    dsimp only
    have hlen : (sortByDesc itemScore
        (List.zipWith applyRerank (cands.take k) ss)).length
        = min (cands.take k).length ss.length := by
      rw [length_sortByDesc, List.length_zipWith]
    refine ⟨?_, ?_, ?_, pairwise_sortByDesc _ _, rfl⟩
    · rw [hlen, List.length_take]
      exact le_trans (min_le_left _ _) (min_le_right _ _)
    · rw [hlen, List.length_take]
      exact le_trans (min_le_left _ _) (min_le_left _ _)
    · intro x hx
      rcases mem_zipWith (mem_sortByDesc.mp hx) with ⟨c, hcmem, s, hsmem, rfl⟩
      have hcb := hc c (List.mem_of_mem_take hcmem)
      have hsb := hss s hsmem
      refine ⟨c, hcmem, s, hsmem, rfl, rfl, rfl, ?_, ?_⟩
      · simp only [itemScore, applyRerank, Option.getD_some]
        obtain ⟨a1, a2⟩ := hcb
        obtain ⟨b1, b2⟩ := hsb
        linarith
      · simp only [itemScore, applyRerank, Option.getD_some]
        obtain ⟨a1, a2⟩ := hcb
        obtain ⟨b1, b2⟩ := hsb
        linarith

/-- A concrete shortlist item. -/
def itemA : RerankItem :=
  { document := some "резюме кандидата", score := some (3 / 5), rerank_score := none }

/-- Witness for C7 at a concrete input (model failure path). -/
theorem rerank_candidates_spec_witness :
    rerank_candidates "текст вакансии" (Except.error "boom") [itemA] 5
      = List.take 5 [itemA] :=
  (rerank_candidates_spec "текст вакансии" [itemA] 5 [1 / 2] "boom"
    (by intro s hs; rw [List.mem_singleton] at hs; subst hs; norm_num)
    (by intro c hc; rw [List.mem_singleton] at hc; subst hc; norm_num [itemA])).2.2.2.2


/-! ## Claims C9 and C5: the panel coordinator (`src/agents/agent_coordinator.py`) -/

/-- An evaluator agent of the fixed roster, abstracted to what the
coordinator uses: its display name, description and relevance predicate. -/
structure Agent where
  name : String
  description : String
  is_relevant_for_vacancy : Vacancy → Bool

/-- `AgentCoordinator.select_agents_for_vacancy`.  The LLM call is an
oracle argument.  On success the response is split into `selected_names` —
which the source then *discards*, returning the predicate-filtered roster;
on failure the `except` branch returns the same predicate-filtered roster. -/
def select_agents_for_vacancy (all_agents : List Agent) (vacancy : Vacancy)
    (llm_response : Except String String) : List Agent :=
  match llm_response with
  | Except.ok response =>
    let _selected_names := (pySplit response ',').map pyStrip
    all_agents.filter (fun a => a.is_relevant_for_vacancy vacancy)
  | Except.error _ =>
    all_agents.filter (fun a => a.is_relevant_for_vacancy vacancy)

/-- **C9.** Panel selection returns exactly the roster agents whose
`is_relevant_for_vacancy` predicate holds, regardless of the LLM's advisory
agent-name suggestion: two runs with different LLM responses return the
same subset, and when the LLM call throws, the same predicate-based subset
is returned. -/
theorem select_agents_llm_independent (all_agents : List Agent) (v : Vacancy)
    (r1 r2 : Except String String) (e : String) :
    select_agents_for_vacancy all_agents v r1
        = all_agents.filter (fun a => a.is_relevant_for_vacancy v)
    ∧ (∀ a : Agent, a ∈ select_agents_for_vacancy all_agents v r1 ↔
        a ∈ all_agents ∧ a.is_relevant_for_vacancy v = true)
    ∧ select_agents_for_vacancy all_agents v r1 = select_agents_for_vacancy all_agents v r2
    ∧ select_agents_for_vacancy all_agents v (Except.error e)
        = all_agents.filter (fun a => a.is_relevant_for_vacancy v) := by
  have hall : ∀ r : Except String String,
      select_agents_for_vacancy all_agents v r
        = all_agents.filter (fun a => a.is_relevant_for_vacancy v) := by
    intro r
    cases r <;> rfl
  refine ⟨hall r1, ?_, (hall r1).trans (hall r2).symm, hall (Except.error e)⟩
  intro a
  rw [hall r1, List.mem_filter]

/-- `AgentResult` (dataclass in `src/agents/base_agent.py`). -/
structure AgentResult where
  agent_name : String
  agent_type : String
  score : ℚ
  confidence : ℚ
  findings : String
  strengths : List String
  weaknesses : List String
  recommendations : List String
deriving DecidableEq

/-- The dictionary returned by `analyze_candidate`; `total_agents` is
absent (`none`) on the two early-return paths. -/
structure AnalysisOutput where
  agent_results : List AgentResult
  overall_score : ℚ
  summary : String
  total_agents : Option ℕ
deriving DecidableEq

/-- The final summary: one more LLM call, with a static fallback text on
failure. -/
def generate_summary_outcome : Except String String → String
  | Except.ok s => s
  | Except.error _ => "Анализ завершен. Смотрите детали по каждому агенту."

/-- `AgentCoordinator.analyze_candidate`, aggregation part.  The evaluator
runs are external I/O: `agent_results` is the list of successfully returned
results (the sequential loop and the concurrent gather both drop failed
runs), and `summary_response` the outcome of the summary call. -/
def analyze_candidate (agents : List Agent) (agent_results : List AgentResult)
    (summary_response : Except String String) : AnalysisOutput :=
  if agents.isEmpty then
    { agent_results := [], overall_score := 0,
      summary := "Нет подходящих агентов для анализа", total_agents := none }
  else if agent_results.isEmpty then
    { agent_results := [], overall_score := 0,
      summary := "Ошибка анализа агентами", total_agents := none }
  else
    let total_weight := (agent_results.map (fun r => r.confidence)).sum
    let overall_score :=
      if 0 < total_weight then
        (agent_results.map (fun r => r.score * r.confidence)).sum / total_weight
      else
        (agent_results.map (fun r => r.score)).sum / (agent_results.length : ℚ)
    { agent_results := agent_results, overall_score := overall_score,
      summary := generate_summary_outcome summary_response,
      total_agents := some agent_results.length }

/-- **C5.** For every non-empty result list the aggregated `overall_score`
is the confidence-weighted mean `Σ(sᵢ·cᵢ)/Σcᵢ`; when the total confidence
is `0` it is the unweighted mean (no division by zero); and with zero
evaluators `analyze_candidate` returns `overall_score = 0.0` with the
explicit no-evaluators summary (the empty-results path likewise returns
`0.0`). -/
theorem analyze_candidate_aggregation (agents : List Agent)
    (results : List AgentResult) (sresp : Except String String)
    (hne : agents ≠ []) (hconf : ∀ r ∈ results, 0 ≤ r.confidence) :
    (results ≠ [] → (results.map (fun r => r.confidence)).sum ≠ 0 →
      (analyze_candidate agents results sresp).overall_score =
        (results.map (fun r => r.score * r.confidence)).sum
          / (results.map (fun r => r.confidence)).sum)
    ∧ (results ≠ [] → (results.map (fun r => r.confidence)).sum = 0 →
      (analyze_candidate agents results sresp).overall_score =
        (results.map (fun r => r.score)).sum / (results.length : ℚ))
    ∧ (analyze_candidate [] results sresp).overall_score = 0
    ∧ (analyze_candidate [] results sresp).summary = "Нет подходящих агентов для анализа"
    ∧ (analyze_candidate agents [] sresp).overall_score = 0 := by
  have hae : ¬agents.isEmpty = true := by
    simpa [List.isEmpty_iff] using hne
  refine ⟨?_, ?_, rfl, rfl, ?_⟩
  · intro hres hw
    have hre : ¬results.isEmpty = true := by
      simpa [List.isEmpty_iff] using hres
    have hpos : 0 < (results.map (fun r => r.confidence)).sum := by
      rcases lt_or_eq_of_le (List.sum_nonneg (by
        intro x hx
        rcases List.mem_map.mp hx with ⟨r, hr, rfl⟩
        exact hconf r hr)) with h | h
      · exact h
      · exact absurd h.symm hw
    unfold analyze_candidate
    rw [if_neg hae, if_neg hre]
    dsimp only
    rw [if_pos hpos]
  · intro hres hw
    have hre : ¬results.isEmpty = true := by
      simpa [List.isEmpty_iff] using hres
    unfold analyze_candidate
    rw [if_neg hae, if_neg hre]
    dsimp only
    rw [hw, if_neg (lt_irrefl 0)]
  · unfold analyze_candidate
    rw [if_neg hae, if_pos (by rfl)]

/-- A concrete roster agent. -/
def agentA : Agent :=
  { name := "DevOps Агент", description := "инфраструктура",
    is_relevant_for_vacancy := fun _ => true }

/-- A concrete evaluator result. -/
def resA : AgentResult :=
  { agent_name := "DevOps Агент", agent_type := "DevOpsAgent", score := 4 / 5,
    confidence := 1 / 2, findings := "", strengths := [], weaknesses := [],
    recommendations := [] }

/-- Witness for C5 at a concrete input. -/
theorem analyze_candidate_aggregation_witness :
    (analyze_candidate [agentA] [resA] (Except.error "quota")).overall_score
      = (([resA].map (fun r => r.score * r.confidence)).sum
          / (([resA].map (fun r => r.confidence)).sum)) :=
  (analyze_candidate_aggregation [agentA] [resA] (Except.error "quota")
    (by simp)
    (by intro r hr; rw [List.mem_singleton] at hr; subst hr; norm_num [resA])).1
    (by simp) (by norm_num [resA])


/-! ## Claim C6: the evaluator-response parser
(`BaseAgent._parse_agent_response` in `src/agents/base_agent.py`)

The parser is a fold over the stripped lines of the response with state
(result so far, `current_section`); it is total by construction — every
Python exception site (the two `float(...)` calls) is caught in the source
and modelled by `Option`. -/

/-- The result dictionary of `_parse_agent_response`. -/
structure ParsedResponse where
  score : ℚ
  confidence : ℚ
  findings : String
  strengths : List String
  weaknesses : List String
  recommendations : List String
deriving DecidableEq

/-- The initial `result` dictionary (the documented defaults). -/
def parseDefaults : ParsedResponse :=
  { score := 0, confidence := 4 / 5, findings := "", strengths := [],
    weaknesses := [], recommendations := [] }

/-- `[s.strip() for s in text.split("|") if s.strip()]`. -/
def pySplitItems (text : String) : List String :=
  ((pySplit text '|').map pyStrip).filter (fun s => s ≠ "")

/-- One iteration of the parsing loop.  The chain of `startswith` tests,
the two guarded `float` conversions, the non-empty guards on the three
pipe-delimited lists, and the free-text accumulation guard follow the
source line by line (`current_section` is only ever `None` or
`"findings"`). -/
def parseStep (st : ParsedResponse × Option String) (rawLine : String) :
    ParsedResponse × Option String :=
  let line := pyStrip rawLine
  let r := st.1
  let cs := st.2
  if pyStartsWith line "SCORE:" then
    match pyFloat (pyStrip (pyReplaceDel line "SCORE:")) with
    | some v => ({ r with score := v }, cs)
    | none => (r, cs)
  else if pyStartsWith line "CONFIDENCE:" then
    match pyFloat (pyStrip (pyReplaceDel line "CONFIDENCE:")) with
    | some v => ({ r with confidence := v }, cs)
    | none => (r, cs)
  else if pyStartsWith line "FINDINGS:" then
    ({ r with findings := pyStrip (pyReplaceDel line "FINDINGS:") }, some "findings")
  else if pyStartsWith line "STRENGTHS:" then
    let t := pyStrip (pyReplaceDel line "STRENGTHS:")
    (if t ≠ "" then { r with strengths := pySplitItems t } else r, cs)
  else if pyStartsWith line "WEAKNESSES:" then
    let t := pyStrip (pyReplaceDel line "WEAKNESSES:")
    (if t ≠ "" then { r with weaknesses := pySplitItems t } else r, cs)
  else if pyStartsWith line "RECOMMENDATIONS:" then
    let t := pyStrip (pyReplaceDel line "RECOMMENDATIONS:")
    (if t ≠ "" then { r with recommendations := pySplitItems t } else r, cs)
  else if st.2 = some "findings" ∧ line ≠ ""
      ∧ (pyStartsWith line "SCORE:" || pyStartsWith line "CONFIDENCE:"
          || pyStartsWith line "STRENGTHS:" || pyStartsWith line "WEAKNESSES:"
          || pyStartsWith line "RECOMMENDATIONS:") = false then
    ({ r with findings := r.findings ++ " " ++ line }, cs)
  else (r, cs)

/-- `BaseAgent._parse_agent_response`. -/
def parse_agent_response (response : String) : ParsedResponse :=
  ((pySplit (pyStrip response) '\n').foldl parseStep (parseDefaults, none)).1

theorem parseStep_score_some (r : ParsedResponse) (cs : Option String) (l : String) (v : ℚ)
    (h1 : pyStartsWith (pyStrip l) "SCORE:" = true)
    (h2 : pyFloat (pyStrip (pyReplaceDel (pyStrip l) "SCORE:")) = some v) :
    parseStep (r, cs) l = ({ r with score := v }, cs) := by
  unfold parseStep
  dsimp only
  rw [if_pos h1, h2]

theorem parseStep_conf_some (r : ParsedResponse) (cs : Option String) (l : String) (v : ℚ)
    (h0 : pyStartsWith (pyStrip l) "SCORE:" = false)
    (h1 : pyStartsWith (pyStrip l) "CONFIDENCE:" = true)
    (h2 : pyFloat (pyStrip (pyReplaceDel (pyStrip l) "CONFIDENCE:")) = some v) :
    parseStep (r, cs) l = ({ r with confidence := v }, cs) := by
  unfold parseStep
  dsimp only
  rw [if_neg (by simp [h0]), if_pos h1, h2]

theorem parseStep_findings_line (r : ParsedResponse) (cs : Option String) (l : String)
    (h0 : pyStartsWith (pyStrip l) "SCORE:" = false)
    (h1 : pyStartsWith (pyStrip l) "CONFIDENCE:" = false)
    (h2 : pyStartsWith (pyStrip l) "FINDINGS:" = true) :
    parseStep (r, cs) l =
      ({ r with findings := pyStrip (pyReplaceDel (pyStrip l) "FINDINGS:") },
        some "findings") := by
  unfold parseStep
  dsimp only
  rw [if_neg (by simp [h0]), if_neg (by simp [h1]), if_pos h2]

theorem parseStep_strengths_line (r : ParsedResponse) (cs : Option String) (l t : String)
    (h0 : pyStartsWith (pyStrip l) "SCORE:" = false)
    (h1 : pyStartsWith (pyStrip l) "CONFIDENCE:" = false)
    (h2 : pyStartsWith (pyStrip l) "FINDINGS:" = false)
    (h3 : pyStartsWith (pyStrip l) "STRENGTHS:" = true)
    (ht : pyStrip (pyReplaceDel (pyStrip l) "STRENGTHS:") = t)
    (hne : t ≠ "") :
    parseStep (r, cs) l = ({ r with strengths := pySplitItems t }, cs) := by
  unfold parseStep
  dsimp only
  rw [if_neg (by simp [h0]), if_neg (by simp [h1]), if_neg (by simp [h2]), if_pos h3, ht,
    if_pos hne]

theorem parseStep_weaknesses_line (r : ParsedResponse) (cs : Option String) (l t : String)
    (h0 : pyStartsWith (pyStrip l) "SCORE:" = false)
    (h1 : pyStartsWith (pyStrip l) "CONFIDENCE:" = false)
    (h2 : pyStartsWith (pyStrip l) "FINDINGS:" = false)
    (h3 : pyStartsWith (pyStrip l) "STRENGTHS:" = false)
    (h4 : pyStartsWith (pyStrip l) "WEAKNESSES:" = true)
    (ht : pyStrip (pyReplaceDel (pyStrip l) "WEAKNESSES:") = t)
    (hne : t ≠ "") :
    parseStep (r, cs) l = ({ r with weaknesses := pySplitItems t }, cs) := by
  unfold parseStep
  dsimp only
  rw [if_neg (by simp [h0]), if_neg (by simp [h1]), if_neg (by simp [h2]),
    if_neg (by simp [h3]), if_pos h4, ht, if_pos hne]

theorem parseStep_recommendations_line (r : ParsedResponse) (cs : Option String) (l t : String)
    (h0 : pyStartsWith (pyStrip l) "SCORE:" = false)
    (h1 : pyStartsWith (pyStrip l) "CONFIDENCE:" = false)
    (h2 : pyStartsWith (pyStrip l) "FINDINGS:" = false)
    (h3 : pyStartsWith (pyStrip l) "STRENGTHS:" = false)
    (h4 : pyStartsWith (pyStrip l) "WEAKNESSES:" = false)
    (h5 : pyStartsWith (pyStrip l) "RECOMMENDATIONS:" = true)
    (ht : pyStrip (pyReplaceDel (pyStrip l) "RECOMMENDATIONS:") = t)
    (hne : t ≠ "") :
    parseStep (r, cs) l = ({ r with recommendations := pySplitItems t }, cs) := by
  unfold parseStep
  dsimp only
  rw [if_neg (by simp [h0]), if_neg (by simp [h1]), if_neg (by simp [h2]),
    if_neg (by simp [h3]), if_neg (by simp [h4]), if_pos h5, ht, if_pos hne]

theorem parseStep_freetext (r : ParsedResponse) (l : String)
    (h0 : pyStartsWith (pyStrip l) "SCORE:" = false)
    (h1 : pyStartsWith (pyStrip l) "CONFIDENCE:" = false)
    (h2 : pyStartsWith (pyStrip l) "FINDINGS:" = false)
    (h3 : pyStartsWith (pyStrip l) "STRENGTHS:" = false)
    (h4 : pyStartsWith (pyStrip l) "WEAKNESSES:" = false)
    (h5 : pyStartsWith (pyStrip l) "RECOMMENDATIONS:" = false)
    (hne : pyStrip l ≠ "") :
    parseStep (r, some "findings") l =
      ({ r with findings := r.findings ++ " " ++ pyStrip l }, some "findings") := by
  unfold parseStep
  dsimp only
  rw [if_neg (by simp [h0]), if_neg (by simp [h1]), if_neg (by simp [h2]),
    if_neg (by simp [h3]), if_neg (by simp [h4]), if_neg (by simp [h5]),
    if_pos ⟨rfl, hne, by simp [h0, h1, h3, h4, h5]⟩]

/-- `true` iff the (stripped) line starts with one of the six recognized
keys. -/
def isKeyLine (line : String) : Bool :=
  pyStartsWith line "SCORE:" || pyStartsWith line "CONFIDENCE:"
    || pyStartsWith line "FINDINGS:" || pyStartsWith line "STRENGTHS:"
    || pyStartsWith line "WEAKNESSES:" || pyStartsWith line "RECOMMENDATIONS:"

theorem isKeyLine_false_parts {l : String} (h : isKeyLine l = false) :
    pyStartsWith l "SCORE:" = false ∧ pyStartsWith l "CONFIDENCE:" = false
    ∧ pyStartsWith l "FINDINGS:" = false ∧ pyStartsWith l "STRENGTHS:" = false
    ∧ pyStartsWith l "WEAKNESSES:" = false ∧ pyStartsWith l "RECOMMENDATIONS:" = false := by
  unfold isKeyLine at h
  simp only [Bool.or_eq_false_iff] at h
  exact ⟨h.1.1.1.1.1, h.1.1.1.1.2, h.1.1.1.2, h.1.1.2, h.1.2, h.2⟩

theorem parseStep_no_key (r : ParsedResponse) (l : String)
    (h : isKeyLine (pyStrip l) = false) : parseStep (r, none) l = (r, none) := by
  obtain ⟨h1, h2, h3, h4, h5, h6⟩ := isKeyLine_false_parts h
  unfold parseStep
  dsimp only
  simp [h1, h2, h3, h4, h5, h6]

theorem foldl_no_key (lines : List String) :
    ∀ r : ParsedResponse,
      (∀ l ∈ lines, isKeyLine (pyStrip l) = false) →
      lines.foldl parseStep (r, none) = (r, none) := by
  induction lines with
  | nil => intro r _; rfl
  | cons l ls ih =>
    intro r h
    rw [List.foldl_cons, parseStep_no_key r l (h l (List.mem_cons_self _ _))]
    exact ih r (fun x hx => h x (List.mem_cons_of_mem _ hx))

theorem parseStep_score_eq (r : ParsedResponse) (cs : Option String) (l : String)
    (h : pyStartsWith (pyStrip l) "SCORE:" = true →
      pyFloat (pyStrip (pyReplaceDel (pyStrip l) "SCORE:")) = none) :
    (parseStep (r, cs) l).1.score = r.score := by
  unfold parseStep
  dsimp only
  by_cases h1 : pyStartsWith (pyStrip l) "SCORE:" = true
  · rw [if_pos h1, h h1]
  · rw [if_neg h1]
    split_ifs <;> first | rfl | (split <;> rfl)

theorem parseStep_conf_eq (r : ParsedResponse) (cs : Option String) (l : String)
    (h : pyStartsWith (pyStrip l) "CONFIDENCE:" = true →
      pyFloat (pyStrip (pyReplaceDel (pyStrip l) "CONFIDENCE:")) = none) :
    (parseStep (r, cs) l).1.confidence = r.confidence := by
  unfold parseStep
  dsimp only
  by_cases h1 : pyStartsWith (pyStrip l) "SCORE:" = true
  · rw [if_pos h1]
    split <;> rfl
  · rw [if_neg h1]
    by_cases h2 : pyStartsWith (pyStrip l) "CONFIDENCE:" = true
    · rw [if_pos h2, h h2]
    · rw [if_neg h2]
      split_ifs <;> rfl

theorem foldl_score_conf (lines : List String) :
    ∀ st : ParsedResponse × Option String,
      (∀ l ∈ lines,
        (pyStartsWith (pyStrip l) "SCORE:" = true →
          pyFloat (pyStrip (pyReplaceDel (pyStrip l) "SCORE:")) = none)
        ∧ (pyStartsWith (pyStrip l) "CONFIDENCE:" = true →
          pyFloat (pyStrip (pyReplaceDel (pyStrip l) "CONFIDENCE:")) = none)) →
      (lines.foldl parseStep st).1.score = st.1.score
        ∧ (lines.foldl parseStep st).1.confidence = st.1.confidence := by
  induction lines with
  | nil => intro st _; exact ⟨rfl, rfl⟩
  | cons l ls ih =>
    intro st h
    rw [List.foldl_cons]
    have h0 := h l (List.mem_cons_self _ _)
    have hrec := ih (parseStep st l) (fun x hx => h x (List.mem_cons_of_mem _ hx))
    obtain ⟨r, cs⟩ := st
    exact ⟨hrec.1.trans (parseStep_score_eq r cs l h0.1),
           hrec.2.trans (parseStep_conf_eq r cs l h0.2)⟩


/-- The well-formed response of the parser's docstring. -/
def wellFormedResp : String :=
  "SCORE: 0.85\nCONFIDENCE: 0.9\nFINDINGS: Main findings here\nSTRENGTHS: strength1 | strength2 | strength3\nWEAKNESSES: weakness1 | weakness2\nRECOMMENDATIONS: rec1 | rec2"

/-- Concrete evaluation: the docstring's well-formed response parses to
exactly its stated values. -/
theorem parse_wellformed_eval :
    parse_agent_response wellFormedResp =
      { score := 17 / 20, confidence := 9 / 10, findings := "Main findings here",
        strengths := ["strength1", "strength2", "strength3"],
        weaknesses := ["weakness1", "weakness2"],
        recommendations := ["rec1", "rec2"] } := by
  have hlines : pySplit (pyStrip wellFormedResp) '\n' =
      ["SCORE: 0.85", "CONFIDENCE: 0.9", "FINDINGS: Main findings here",
       "STRENGTHS: strength1 | strength2 | strength3",
       "WEAKNESSES: weakness1 | weakness2", "RECOMMENDATIONS: rec1 | rec2"] := by
    decide
  have hf1 : pyFloat (pyStrip (pyReplaceDel (pyStrip "SCORE: 0.85") "SCORE:"))
      = some (17 / 20) := by
    rw [(by decide : pyStrip (pyReplaceDel (pyStrip "SCORE: 0.85") "SCORE:") = "0.85")]
    unfold pyFloat
    rw [(by decide : pyFloatShape "0.85".data = some (false, ['0'], ['8', '5']))]
    norm_num [(by decide : natOfDigits ['0'] = 0), (by decide : natOfDigits ['8', '5'] = 85)]
  have hf2 : pyFloat (pyStrip (pyReplaceDel (pyStrip "CONFIDENCE: 0.9") "CONFIDENCE:"))
      = some (9 / 10) := by
    rw [(by decide : pyStrip (pyReplaceDel (pyStrip "CONFIDENCE: 0.9") "CONFIDENCE:") = "0.9")]
    unfold pyFloat
    rw [(by decide : pyFloatShape "0.9".data = some (false, ['0'], ['9']))]
    norm_num [(by decide : natOfDigits ['0'] = 0), (by decide : natOfDigits ['9'] = 9)]
  unfold parse_agent_response
  rw [hlines, List.foldl_cons,
    parseStep_score_some _ _ _ (17 / 20) (by decide) hf1,
    List.foldl_cons,
    parseStep_conf_some _ _ _ (9 / 10) (by decide) (by decide) hf2,
    List.foldl_cons,
    parseStep_findings_line _ _ _ (by decide) (by decide) (by decide),
    List.foldl_cons,
    parseStep_strengths_line _ _ _ "strength1 | strength2 | strength3"
      (by decide) (by decide) (by decide) (by decide) (by decide) (by decide),
    List.foldl_cons,
    parseStep_weaknesses_line _ _ _ "weakness1 | weakness2"
      (by decide) (by decide) (by decide) (by decide) (by decide) (by decide) (by decide),
    List.foldl_cons,
    parseStep_recommendations_line _ _ _ "rec1 | rec2"
      (by decide) (by decide) (by decide) (by decide) (by decide) (by decide) (by decide)
      (by decide)]
  rw [(by decide : pyStrip (pyReplaceDel (pyStrip "FINDINGS: Main findings here") "FINDINGS:")
      = "Main findings here")]
  rw [(by decide : pySplitItems "strength1 | strength2 | strength3"
      = ["strength1", "strength2", "strength3"])]
  rw [(by decide : pySplitItems "weakness1 | weakness2" = ["weakness1", "weakness2"])]
  rw [(by decide : pySplitItems "rec1 | rec2" = ["rec1", "rec2"])]
  simp [parseDefaults]

/-- A response whose free-text lines (matching no key) follow
`FINDINGS:`. -/
def findingsResp : String :=
  "FINDINGS: Main findings here\nextra detail line\nSTRENGTHS: a | b\nmore detail"

/-- Concrete evaluation: free-text lines after `FINDINGS:` that match no
other key accumulate into `findings`, even across a `STRENGTHS:` line. -/
theorem parse_findings_accum_eval :
    (parse_agent_response findingsResp).findings
      = "Main findings here extra detail line more detail" := by
  have hlines : pySplit (pyStrip findingsResp) '\n' =
      ["FINDINGS: Main findings here", "extra detail line", "STRENGTHS: a | b",
       "more detail"] := by decide
  unfold parse_agent_response
  rw [hlines, List.foldl_cons,
    parseStep_findings_line _ _ _ (by decide) (by decide) (by decide),
    List.foldl_cons,
    parseStep_freetext _ _ (by decide) (by decide) (by decide) (by decide) (by decide)
      (by decide) (by decide),
    List.foldl_cons,
    parseStep_strengths_line _ _ _ "a | b"
      (by decide) (by decide) (by decide) (by decide) (by decide) (by decide),
    List.foldl_cons,
    parseStep_freetext _ _ (by decide) (by decide) (by decide) (by decide) (by decide)
      (by decide) (by decide)]
  rw [(by decide : pyStrip (pyReplaceDel (pyStrip "FINDINGS: Main findings here") "FINDINGS:")
      = "Main findings here")]
  rw [(by decide : pyStrip "extra detail line" = "extra detail line"),
    (by decide : pyStrip "more detail" = "more detail")]
  simp [parseDefaults]

/-- **C6.** The evaluator-response parser is total (it is a function in this
embedding: every exception site in the source is caught) and satisfies:
the docstring's well-formed response with known SCORE/CONFIDENCE values and
pipe-delimited STRENGTHS/WEAKNESSES/RECOMMENDATIONS lines parses to exactly
those values; a response none of whose lines starts with a recognized key
parses to score `0.0`, confidence `0.8`, empty findings and empty lists;
unparseable numeric fields keep those defaults; and free-text lines
following `FINDINGS:` that match no other key accumulate into findings. -/
theorem parse_agent_response_spec :
    (parse_agent_response wellFormedResp =
      { score := 17 / 20, confidence := 9 / 10, findings := "Main findings here",
        strengths := ["strength1", "strength2", "strength3"],
        weaknesses := ["weakness1", "weakness2"],
        recommendations := ["rec1", "rec2"] })
    ∧ (∀ resp : String,
        (∀ l ∈ pySplit (pyStrip resp) '\n', isKeyLine (pyStrip l) = false) →
        parse_agent_response resp = parseDefaults)
    ∧ (∀ resp : String,
        (∀ l ∈ pySplit (pyStrip resp) '\n',
          (pyStartsWith (pyStrip l) "SCORE:" = true →
            pyFloat (pyStrip (pyReplaceDel (pyStrip l) "SCORE:")) = none)
          ∧ (pyStartsWith (pyStrip l) "CONFIDENCE:" = true →
            pyFloat (pyStrip (pyReplaceDel (pyStrip l) "CONFIDENCE:")) = none)) →
        (parse_agent_response resp).score = 0
          ∧ (parse_agent_response resp).confidence = 4 / 5)
    ∧ (parse_agent_response findingsResp).findings
        = "Main findings here extra detail line more detail" := by
  refine ⟨parse_wellformed_eval, ?_, ?_, parse_findings_accum_eval⟩
  · intro resp h
    unfold parse_agent_response
    rw [foldl_no_key _ parseDefaults h]
  · intro resp h
    have h2 := foldl_score_conf (pySplit (pyStrip resp) '\n') (parseDefaults, none) h
    unfold parse_agent_response
    exact ⟨h2.1, h2.2⟩

/-- Witness for C6: a response with no recognized key parses to the
documented defaults. -/
theorem parse_agent_response_spec_witness :
    parse_agent_response "совсем не тот формат ответа" = parseDefaults :=
  parse_agent_response_spec.2.1 "совсем не тот формат ответа" (by decide)

end AiHack

